import Mathlib

/-!
Verification of the jetayuV1 backend conversation/booking engine.

Shallow embedding of the Python sources under `backend/app`:
  * `services/lead_manager.py` — lead record, merge (`update_lead`),
    selection setter, submission-state setter, booking confirmation,
    missing-field computation;
  * `services/intent_detector.py` — aircraft intent classification;
  * `services/aircraft.py` — static fleet catalog and recommendation logic;
  * `routes/chat.py` — capacity-tier computation and bigger/smaller filters,
    and the confirm-then-notify fragment of the chat route;
  * `services/email_service.py` — dedup set of the notification dispatcher.

The database is modelled by the `LeadState` record itself: every manager
method reads the current row, builds an update, applies it and re-reads, so
each method becomes a pure function `LeadState → ... → LeadState`.  Values
arriving in the `updates` dict of `update_lead` are modelled by `PyVal`;
Python truthiness (`if not x`) is modelled explicitly, so `none` and the
empty string are both "falsy".
-/

/-- A value stored in a Python update dict: `None`, a string, an int, or a
list of strings (the shapes that reach `LeadManager.update_lead`). -/
inductive PyVal where
  | pnone
  | pstr (s : String)
  | pint (n : Nat)
  | plist (l : List String)
deriving DecidableEq, Repr

/-- Python truthiness of a `PyVal` (`if updates.get(k):`). -/
def PyVal.truthy : PyVal → Bool
  | .pnone => false
  | .pstr s => s ≠ ""
  | .pint n => n ≠ 0
  | .plist l => l ≠ []

/-- Python truthiness of an optional string field (`if not lead.f:`). -/
def truthyStr : Option String → Bool
  | none => false
  | some s => s ≠ ""

/-- Python truthiness of the optional integer `pax` field. -/
def truthyPax : Option Nat → Bool
  | none => false
  | some n => n ≠ 0

/-- The lead record of `app/models/schemas.py` (`LeadState`), which is also
how `LeadManager.get_lead` materialises the stored row.  The pydantic model
has no `phone` field, so a `phone` value written by `update_lead` never
appears on the returned lead and is not modelled here. -/
structure LeadState where
  name : Option String := none
  email : Option String := none
  date_time : Option String := none
  route_from : Option String := none
  route_to : Option String := none
  pax : Option Nat := none
  special_requests : List String := []
  selected_aircraft : Option String := none
  status : String := "draft"
  submission_state : String := "collecting"
  user_id : Option String := none
deriving DecidableEq, Repr

/-- An `updates` dict as passed to `LeadManager.update_lead`: an association
list of keys to Python values (Python dicts have unique keys; lookup takes
the first binding). -/
def Updates := List (String × PyVal)

/-- `updates.get(k)` when the key is present, `none` when absent. -/
def dictGet (updates : Updates) (k : String) : Option PyVal :=
  match updates with
  | [] => none
  | (k2, v) :: rest => if k2 = k then some v else dictGet rest k

/-- One string-field branch of `LeadManager.update_lead`, as a function of
the looked-up dict value:
`if k in updates and updates.get(k) and updates[k] != current.f:
    update_data[k] = updates[k]`.
Only string values reach these branches in the program. -/
def applyStrVal : Option PyVal → Option String → Option String
  | some (.pstr s), cur => if s ≠ "" ∧ some s ≠ cur then some s else cur
  | _, cur => cur

/-- The string-field branch of `update_lead` for the key `k`. -/
def applyStrField (updates : Updates) (k : String) (cur : Option String) :
    Option String :=
  applyStrVal (dictGet updates k) cur

/-- The `pax` branch of `update_lead`, as a function of the looked-up dict
value:
`if "pax" in updates and updates.get("pax") is not None and updates["pax"] != current.pax`. -/
def applyPaxVal : Option PyVal → Option Nat → Option Nat
  | some (.pint n), cur => if some n ≠ cur then some n else cur
  | _, cur => cur

/-- The `pax` branch of `update_lead`. -/
def applyPax (updates : Updates) (cur : Option Nat) : Option Nat :=
  applyPaxVal (dictGet updates "pax") cur

/-- The `selected_aircraft` branch of `update_lead` (immutability rule), as
a function of the looked-up dict value: a differing candidate is applied
only when the current value is `None` (first selection) or the candidate is
`None` (explicit clear); otherwise the existing selection is preserved. -/
def applySelVal : Option PyVal → Option String → Option String
  | some .pnone, cur => if cur ≠ none then none else cur
  | some (.pstr s), cur =>
      if some s ≠ cur then (if cur = none then some s else cur) else cur
  | _, cur => cur

/-- The `selected_aircraft` branch of `update_lead`. -/
def applySelectedAircraft (updates : Updates) (cur : Option String) :
    Option String :=
  applySelVal (dictGet updates "selected_aircraft") cur

/-- The `special_requests` branch of `update_lead`, as a function of the
looked-up dict value: a truthy candidate (single string or list of strings)
is appended after dropping strings already present; the existing sequence
is never replaced. -/
def applySpecialVal : Option PyVal → List String → List String
  | some (.pstr s), existing =>
      if s ≠ "" then existing ++ ([s].filter (fun r => ¬ existing.contains r))
      else existing
  | some (.plist l), existing =>
      if l ≠ [] then existing ++ (l.filter (fun r => ¬ existing.contains r))
      else existing
  | _, existing => existing

/-- The `special_requests` branch of `update_lead`. -/
def applySpecialRequests (updates : Updates) (existing : List String) :
    List String :=
  applySpecialVal (dictGet updates "special_requests") existing

/-- `LeadManager.update_lead` (lead_manager.py, lines 93-173) as a pure
merge: name/email candidates are considered only for an unauthenticated
lead (`if not current.user_id`); the scalar branches, the
`selected_aircraft` immutability branch and the `special_requests` append
are as above; no other key of the dict is read, so `status`,
`submission_state` and `user_id` are untouched (the `phone` branch writes a
column that the returned pydantic `LeadState` does not carry). -/
def update_lead (current : LeadState) (updates : Updates) : LeadState :=
  { current with
    name := if truthyStr current.user_id then current.name
            else applyStrField updates "name" current.name
    email := if truthyStr current.user_id then current.email
             else applyStrField updates "email" current.email
    date_time := applyStrField updates "date_time" current.date_time
    route_from := applyStrField updates "route_from" current.route_from
    route_to := applyStrField updates "route_to" current.route_to
    pax := applyPax updates current.pax
    selected_aircraft :=
      applySelectedAircraft updates current.selected_aircraft
    special_requests :=
      applySpecialRequests updates current.special_requests }

example :
    update_lead { pax := some 3 } [("pax", .pint 5), ("status", .pstr "x")] =
      { pax := some 5 } := by decide

example :
    update_lead { selected_aircraft := some "Citation CJ4" }
        [("selected_aircraft", .pstr "Phenom 300E")] =
      { selected_aircraft := some "Citation CJ4" } := by decide

/-- `LeadManager.set_selected_aircraft` (lead_manager.py, lines 394-434):
an empty name is rejected; an existing (truthy) selection is kept unless
`force = true`; otherwise the name is persisted and the fresh lead
returned. -/
def set_selected_aircraft (current : LeadState) (aircraft_name : String)
    (force : Bool) : LeadState :=
  if aircraft_name = "" then current
  else if truthyStr current.selected_aircraft ∧ force = false then current
  else { current with selected_aircraft := some aircraft_name }

/-- `LeadManager.set_submission_state` (lead_manager.py, lines 189-204):
raises `ValueError` (modelled as `Except.error`) for any state outside the
allowed three; otherwise stores the state and returns the fresh lead. -/
def set_submission_state (current : LeadState) (state : String) :
    Except String LeadState :=
  if state ∉ ["collecting", "awaiting_auth", "confirmed"] then
    .error ("Invalid submission_state: " ++ state)
  else .ok { current with submission_state := state }

/-- `LeadManager.confirm_booking` (lead_manager.py, lines 206-247): returns
the unchanged lead unless a truthy `user_id` is passed, the lead has a
truthy `selected_aircraft`, and `submission_state` is one of
`awaiting_auth`, `collecting`, `details_confirmed`; on success stores
`status = confirmed`, `submission_state = confirmed` and the `user_id`. -/
def confirm_booking (current_lead : LeadState) (user_id : Option String) :
    LeadState :=
  if ¬ truthyStr user_id then current_lead
  else if ¬ truthyStr current_lead.selected_aircraft then current_lead
  else if current_lead.submission_state ∉
      ["awaiting_auth", "collecting", "details_confirmed"] then current_lead
  else
    { current_lead with
      status := "confirmed"
      submission_state := "confirmed"
      user_id := user_id }

/-- The confirm-then-notify fragment of the chat route (chat.py, lines
650-667): after `confirm_booking`, `booking_confirmed` is read off the
returned status, and `send_booking_notification_background` is called once
exactly when it is true.  The second component counts the dispatcher
calls. -/
def confirm_and_notify (current_lead : LeadState) (user_id : Option String) :
    LeadState × Nat :=
  let result := confirm_booking current_lead user_id
  (result, if result.status = "confirmed" then 1 else 0)

/-- `LeadManager.get_missing_fields` (lead_manager.py, lines 436-482):
core flight details first; then, once all flight details are present,
`special_requests` unless some request (or the `"none"` sentinel) was
recorded; contact info last and only for an unauthenticated lead. -/
def get_missing_fields (lead : LeadState) : List String :=
  let core :=
    (if truthyStr lead.route_from then [] else ["route_from"]) ++
    (if truthyStr lead.route_to then [] else ["route_to"]) ++
    (if truthyStr lead.date_time then [] else ["date_time"]) ++
    (if truthyPax lead.pax then [] else ["pax"])
  let has_flight_details :=
    truthyStr lead.route_from && truthyStr lead.route_to &&
    truthyStr lead.date_time && truthyPax lead.pax
  let has_been_asked :=
    (lead.special_requests ≠ [] : Bool) &&
    ((lead.special_requests = ["none"] : Bool) ||
      (lead.special_requests.map String.toLower).contains "none")
  let special :=
    if has_flight_details && lead.special_requests.isEmpty && !has_been_asked
    then ["special_requests"] else []
  let contact :=
    if truthyStr lead.user_id then []
    else
      (if truthyStr lead.name then [] else ["name"]) ++
      (if truthyStr lead.email then [] else ["email"])
  core ++ special ++ contact

example :
    get_missing_fields
      { route_from := some "NYC", route_to := some "LA",
        date_time := some "next Friday", pax := some 4 } =
      ["special_requests", "name", "email"] := by decide

example :
    get_missing_fields
      { route_from := some "NYC", route_to := some "LA",
        date_time := some "next Friday", pax := some 4,
        special_requests := ["none"] } = ["name", "email"] := by decide

/-!
## Intent classifier (`services/intent_detector.py`)

The classifier lower-cases and strips the utterance and then tests it
against fixed lists of regular expressions.  The regex engine itself is
Python's `re` library (external to this repository); what the claims are
about is the order in which the pattern groups are consulted.  A
`PatternOracle` packages, for each pattern group, the predicate "some
pattern of this group matches the lower-cased message"; the detector
functions below are the control flow of `detect_aircraft_interest` and
`detect_aircraft_intent` over an arbitrary oracle. -/
structure PatternOracle where
  interest : String → Bool
  query : String → Bool
  larger : String → Bool
  smaller : String → Bool
  cheapest : String → Bool
  fastest : String → Bool

/-- `IntentDetector.detect_aircraft_interest` (intent_detector.py, lines
132-147): true when some `AIRCRAFT_INTEREST_PATTERNS` entry matches the
lower-cased, stripped message. -/
def detect_aircraft_interest (o : PatternOracle) (message : String) : Bool :=
  o.interest message.toLower.trim

/-- `IntentDetector.detect_aircraft_intent` (intent_detector.py, lines
149-200): interest is checked first and suppresses everything else;
otherwise `wants_aircraft` is raised by the query patterns, and the
preference is resolved by the groups larger, smaller, cheapest, fastest in
that order, first match winning, only when `wants_aircraft` is true. -/
def detect_aircraft_intent (o : PatternOracle) (message : String) :
    Bool × Option String :=
  let message_lower := message.toLower.trim
  if detect_aircraft_interest o message then (false, none)
  else
    let wants_aircraft := o.query message_lower
    let preference :=
      if wants_aircraft then
        if o.larger message_lower then some "larger"
        else if o.smaller message_lower then some "smaller"
        else if o.cheapest message_lower then some "cheapest"
        else if o.fastest message_lower then some "fastest"
        else none
      else none
    (wants_aircraft, preference)

/-- A concrete oracle used to witness the classifier theorem: every
utterance matches an interest pattern and a query pattern. -/
def oracleInterest : PatternOracle where
  interest := fun _ => true
  query := fun _ => true
  larger := fun _ => true
  smaller := fun _ => false
  cheapest := fun _ => false
  fastest := fun _ => false

/-- A concrete oracle used to witness the classifier theorem: no utterance
matches an interest pattern, every utterance matches a query pattern and
both the smaller and the cheapest preference groups. -/
def oracleQuery : PatternOracle where
  interest := fun _ => false
  query := fun _ => true
  larger := fun _ => false
  smaller := fun _ => true
  cheapest := fun _ => true
  fastest := fun _ => false

/-!
## Aircraft catalog and recommendation engine (`services/aircraft.py`,
`routes/chat.py`)

The fleet is static reference data; the descriptive metadata (description,
features, image URLs) is never consulted by the recommendation logic and is
omitted from the embedding.  Python's `sorted` is a stable sort; it is
modelled by `List.insertionSort`, which is likewise stable, over the
preorder induced by the respective sort key. -/
structure Aircraft where
  id : String
  name : String
  manufacturer : String
  category : String
  capacity : Nat
  range_nm : Nat
  speed_kph : Nat
  price_per_hour : Nat
  base_price : Nat
deriving DecidableEq, Repr

/-- `AIRCRAFT_FLEET` (aircraft.py, lines 29-245), in source order. -/
def AIRCRAFT_FLEET : List Aircraft :=
  [ { id := "citation-cj4", name := "Citation CJ4", manufacturer := "Cessna",
      category := "Light", capacity := 6, range_nm := 2165,
      speed_kph := 830, price_per_hour := 3500, base_price := 15000 },
    { id := "phenom-300e", name := "Phenom 300E", manufacturer := "Embraer",
      category := "Light", capacity := 7, range_nm := 2010,
      speed_kph := 861, price_per_hour := 3800, base_price := 16500 },
    { id := "citation-latitude", name := "Citation Latitude",
      manufacturer := "Cessna", category := "Midsize", capacity := 8,
      range_nm := 2700, speed_kph := 872, price_per_hour := 4500,
      base_price := 22000 },
    { id := "learjet-75", name := "Learjet 75 Liberty",
      manufacturer := "Bombardier", category := "Midsize", capacity := 8,
      range_nm := 2080, speed_kph := 859, price_per_hour := 4200,
      base_price := 20000 },
    { id := "citation-longitude", name := "Citation Longitude",
      manufacturer := "Cessna", category := "Super Mid", capacity := 12,
      range_nm := 3500, speed_kph := 890, price_per_hour := 5500,
      base_price := 32000 },
    { id := "challenger-350", name := "Challenger 350",
      manufacturer := "Bombardier", category := "Super Mid", capacity := 10,
      range_nm := 3200, speed_kph := 870, price_per_hour := 5800,
      base_price := 35000 },
    { id := "praetor-600", name := "Praetor 600", manufacturer := "Embraer",
      category := "Super Mid", capacity := 12, range_nm := 4018,
      speed_kph := 863, price_per_hour := 5600, base_price := 33000 },
    { id := "gulfstream-g650", name := "Gulfstream G650",
      manufacturer := "Gulfstream", category := "Large Cabin",
      capacity := 19, range_nm := 7000, speed_kph := 956,
      price_per_hour := 9500, base_price := 85000 },
    { id := "falcon-8x", name := "Falcon 8X", manufacturer := "Dassault",
      category := "Large Cabin", capacity := 16, range_nm := 6450,
      speed_kph := 900, price_per_hour := 8500, base_price := 75000 },
    { id := "challenger-650", name := "Challenger 650",
      manufacturer := "Bombardier", category := "Large Cabin",
      capacity := 12, range_nm := 4000, speed_kph := 870,
      price_per_hour := 7000, base_price := 55000 },
    { id := "global-7500", name := "Global 7500",
      manufacturer := "Bombardier", category := "Ultra Long Range",
      capacity := 17, range_nm := 7700, speed_kph := 920,
      price_per_hour := 12000, base_price := 120000 },
    { id := "gulfstream-g700", name := "Gulfstream G700",
      manufacturer := "Gulfstream", category := "Ultra Long Range",
      capacity := 19, range_nm := 7500, speed_kph := 956,
      price_per_hour := 13000, base_price := 130000 } ]

/-- Sort preorder of `sorted(l, key=capacity, reverse=True)`. -/
def capacityDesc (a b : Aircraft) : Prop := b.capacity ≤ a.capacity

/-- Sort preorder of `sorted(l, key=capacity)`. -/
def capacityAsc (a b : Aircraft) : Prop := a.capacity ≤ b.capacity

/-- Sort preorder of `sorted(l, key=base_price)`. -/
def basePriceAsc (a b : Aircraft) : Prop := a.base_price ≤ b.base_price

/-- Sort preorder of `sorted(l, key=speed_kph, reverse=True)`. -/
def speedDesc (a b : Aircraft) : Prop := b.speed_kph ≤ a.speed_kph

/-- Sort preorder of `sorted(l, key=lambda x: (x.capacity - pax,
x.base_price))`: lexicographic closest-fit-then-cheapest.  Every sorted
element satisfies `capacity ≥ pax`, so the truncated subtraction agrees
with Python's integer subtraction there. -/
def closestFit (pax : Nat) (a b : Aircraft) : Prop :=
  a.capacity - pax < b.capacity - pax ∨
    (a.capacity - pax = b.capacity - pax ∧ a.base_price ≤ b.base_price)

instance : DecidableRel capacityDesc := fun _ _ => Nat.decLe _ _
instance : DecidableRel capacityAsc := fun _ _ => Nat.decLe _ _
instance : DecidableRel basePriceAsc := fun _ _ => Nat.decLe _ _
instance : DecidableRel speedDesc := fun _ _ => Nat.decLe _ _
instance (pax : Nat) : DecidableRel (closestFit pax) := fun _ _ =>
  instDecidableOr

instance : IsTotal Aircraft capacityDesc := ⟨fun _ _ => Nat.le_total _ _⟩
instance : IsTotal Aircraft capacityAsc := ⟨fun _ _ => Nat.le_total _ _⟩
instance : IsTotal Aircraft basePriceAsc := ⟨fun _ _ => Nat.le_total _ _⟩
instance : IsTotal Aircraft speedDesc := ⟨fun _ _ => Nat.le_total _ _⟩
instance (pax : Nat) : IsTotal Aircraft (closestFit pax) :=
  ⟨fun a b => by unfold closestFit; omega⟩

instance : IsTrans Aircraft capacityDesc :=
  ⟨fun _ _ _ h1 h2 => Nat.le_trans h2 h1⟩
instance : IsTrans Aircraft capacityAsc :=
  ⟨fun _ _ _ h1 h2 => Nat.le_trans h1 h2⟩
instance : IsTrans Aircraft basePriceAsc :=
  ⟨fun _ _ _ h1 h2 => Nat.le_trans h1 h2⟩
instance : IsTrans Aircraft speedDesc :=
  ⟨fun _ _ _ h1 h2 => Nat.le_trans h2 h1⟩
instance (pax : Nat) : IsTrans Aircraft (closestFit pax) :=
  ⟨fun _ _ _ h1 h2 => by unfold closestFit at h1 h2 ⊢; omega⟩

/-- `AircraftService.get_suitable_aircraft` (aircraft.py, lines 262-298):
filter by capacity (and range when a distance is supplied); if nothing
fits, return the three largest aircraft of the fleet; otherwise sort by
the requested preference (default: closest fit, then price) and return the
top three. -/
def get_suitable_aircraft (pax : Nat) (route_distance_nm : Option Nat)
    (preference : Option String) : List Aircraft :=
  let suitable := AIRCRAFT_FLEET.filter (fun a => pax ≤ a.capacity)
  let suitable :=
    match route_distance_nm with
    | some d => suitable.filter (fun a => d ≤ a.range_nm)
    | none => suitable
  if suitable = [] then
    (List.insertionSort capacityDesc AIRCRAFT_FLEET).take 3
  else if preference = some "larger" then
    (List.insertionSort capacityDesc suitable).take 3
  else if preference = some "smaller" then
    (List.insertionSort capacityAsc suitable).take 3
  else if preference = some "cheapest" then
    (List.insertionSort basePriceAsc suitable).take 3
  else if preference = some "fastest" then
    (List.insertionSort speedDesc suitable).take 3
  else
    (List.insertionSort (closestFit pax) suitable).take 3

example :
    (get_suitable_aircraft 4 none none).map Aircraft.name =
      ["Citation CJ4", "Phenom 300E", "Learjet 75 Liberty"] := by decide

/-- Maximum capacity over a list (`max(a.capacity for a in l)`, used on a
non-empty list). -/
def maxCapacity (l : List Aircraft) : Nat :=
  l.foldl (fun m a => max m a.capacity) 0

/-- Minimum capacity over a list (`min(a.capacity for a in l)`, used on a
non-empty list). -/
def minCapacity (l : List Aircraft) : Nat :=
  match l with
  | [] => 0
  | a :: t => t.foldl (fun m x => min m x.capacity) a.capacity

/-- `compute_recommended_capacity_tier` (chat.py, lines 105-141): run the
default recommendation for `pax`; the ceiling is the largest and the floor
the smallest recommended capacity, the floor raised to at least `pax`. -/
def compute_recommended_capacity_tier (pax : Nat) : Nat × Nat :=
  let recommended := get_suitable_aircraft pax none none
  if recommended = [] then (pax, pax)
  else (max pax (minCapacity recommended), maxCapacity recommended)

/-- `filter_bigger_aircraft` (chat.py, lines 144-156): aircraft strictly
above the recommended ceiling, ascending by capacity, top three. -/
def filter_bigger_aircraft (pax : Nat) (all_aircraft : List Aircraft) :
    List Aircraft :=
  let ceiling := (compute_recommended_capacity_tier pax).2
  (List.insertionSort capacityAsc
    (all_aircraft.filter (fun a => ceiling < a.capacity))).take 3

/-- `filter_smaller_aircraft` (chat.py, lines 159-171): aircraft below the
recommended floor but still holding `pax`, descending by capacity, top
three. -/
def filter_smaller_aircraft (pax : Nat) (all_aircraft : List Aircraft) :
    List Aircraft :=
  let floor := (compute_recommended_capacity_tier pax).1
  (List.insertionSort capacityDesc
    (all_aircraft.filter (fun a => a.capacity < floor ∧ pax ≤ a.capacity))).take 3

example : compute_recommended_capacity_tier 4 = (6, 8) := by decide

/-!
## Notification dispatcher dedup set (`services/email_service.py`)

The dispatcher keeps a lock-guarded in-memory set `_sent_emails` of session
IDs.  `send_booking_notification_background` consults and updates the set
and then starts the background send; `_send_with_retries` runs the send and
may reopen the gate.  The set is modelled as a duplicate-free list, a run
of `_send_with_retries` by the list of per-attempt outcomes for each
configured recipient (`true` = that HTTP send succeeded). -/

/-- `EmailService.MAX_RETRIES`. -/
def MAX_RETRIES : Nat := 3

/-- `EmailService.send_booking_notification_background` (email_service.py,
lines 72-100): if the session is already in the dedup set the call is a
silent no-op (second component `false` = no background send started);
otherwise the session is added to the set before the thread starts. -/
def send_booking_notification_background (sent : List String)
    (session_id : String) : List String × Bool :=
  if sent.contains session_id then (sent, false)
  else (session_id :: sent, true)

/-- One recipient's outcome in `_send_with_retries`: delivery succeeds when
some attempt among the first `MAX_RETRIES` succeeds (the loop breaks at the
first success). -/
def recipientDelivered (attempts : List Bool) : Bool :=
  (attempts.take MAX_RETRIES).any id

/-- The dedup-set effect of `EmailService._send_with_retries`
(email_service.py, lines 102-180): when unconfigured, nothing is sent and
the set is untouched; otherwise `all_success` is set to `False` as soon as
ANY recipient exhausts its retries, and the session is discarded from the
dedup set exactly when `all_success` is false at the end. -/
def send_with_retries (sent : List String) (session_id : String)
    (configured : Bool) (outcomes : List (List Bool)) : List String :=
  if ¬ configured then sent
  else
    let all_success := outcomes.all recipientDelivered
    if all_success then sent else sent.erase session_id

/-!
## Claim theorems
-/

/-- Claim C1: a lead with a non-null (truthy) selected aircraft is returned
unchanged by `set_selected_aircraft` for any different aircraft name when
`force = false`, and the new name is applied when `force = true`.  Null-ness
is Python truthiness (`if current_lead.selected_aircraft`), so the selection
and the new name are nonempty strings. -/
theorem set_selected_aircraft_immutable (lead : LeadState) (s X : String)
    (hsel : lead.selected_aircraft = some s) (hs : s ≠ "")
    (_hX : X ≠ s) (hXne : X ≠ "") :
    set_selected_aircraft lead X false = lead ∧
    (set_selected_aircraft lead X true).selected_aircraft = some X := by
  have htru : truthyStr lead.selected_aircraft = true := by
    simp [truthyStr, hsel, hs]
  constructor
  · unfold set_selected_aircraft
    rw [if_neg hXne, if_pos ⟨htru, rfl⟩]
  · unfold set_selected_aircraft
    rw [if_neg hXne]
    simp

/-- Witness for C1 at a concrete lead and aircraft names. -/
theorem set_selected_aircraft_immutable_witness :
    set_selected_aircraft { selected_aircraft := some "Citation CJ4" }
        "Phenom 300E" false =
      { selected_aircraft := some "Citation CJ4" } ∧
    (set_selected_aircraft { selected_aircraft := some "Citation CJ4" }
        "Phenom 300E" true).selected_aircraft = some "Phenom 300E" :=
  set_selected_aircraft_immutable _ "Citation CJ4" "Phenom 300E" rfl
    (by decide) (by decide) (by decide)

/-- Claim C2: `confirm_booking` is a no-op returning the unchanged lead
unless a (truthy) `user_id` is supplied, the lead has a (truthy)
`selected_aircraft`, and `submission_state` is one of `collecting`,
`awaiting_auth`, `details_confirmed` — in particular a lead whose
`submission_state` is already `confirmed` is never re-confirmed.  When all
preconditions hold it stores `status = confirmed`,
`submission_state = confirmed`, persists the `user_id`, and the chat
route's confirm-then-notify fragment triggers the notification dispatcher
exactly once. -/
theorem confirm_booking_preconditions (lead : LeadState)
    (uid : Option String) :
    ((truthyStr uid = false ∨ truthyStr lead.selected_aircraft = false ∨
        lead.submission_state ∉
          ["collecting", "awaiting_auth", "details_confirmed"]) →
      confirm_booking lead uid = lead) ∧
    (lead.submission_state = "confirmed" →
      confirm_booking lead uid = lead) ∧
    (truthyStr uid = true → truthyStr lead.selected_aircraft = true →
      lead.submission_state ∈
        ["collecting", "awaiting_auth", "details_confirmed"] →
      confirm_and_notify lead uid =
        ({ lead with
            status := "confirmed"
            submission_state := "confirmed"
            user_id := uid }, 1)) := by
  refine ⟨?_, ?_, ?_⟩
  · intro h
    unfold confirm_booking
    by_cases hu : truthyStr uid = true
    · rw [if_neg (by simp [hu])]
      by_cases hsel : truthyStr lead.selected_aircraft = true
      · rw [if_neg (by simp [hsel])]
        rcases h with h | h | h
        · rw [hu] at h; cases h
        · rw [hsel] at h; cases h
        · rw [if_pos]
          revert h
          simp only [List.mem_cons, List.not_mem_nil]
          tauto
      · rw [if_pos (by simp at hsel ⊢; simp [hsel])]
    · rw [if_pos (by simp at hu ⊢; simp [hu])]
  · intro h
    unfold confirm_booking
    by_cases hu : truthyStr uid = true
    · rw [if_neg (by simp [hu])]
      by_cases hsel : truthyStr lead.selected_aircraft = true
      · rw [if_neg (by simp [hsel]), if_pos (by simp [h])]
      · rw [if_pos (by simp at hsel ⊢; simp [hsel])]
    · rw [if_pos (by simp at hu ⊢; simp [hu])]
  · intro h1 h2 h3
    have h3a : lead.submission_state ∈
        ["awaiting_auth", "collecting", "details_confirmed"] := by
      simp only [List.mem_cons, List.not_mem_nil] at h3 ⊢
      tauto
    unfold confirm_and_notify confirm_booking
    rw [if_neg (by simp [h1]), if_neg (by simp [h2]),
      if_neg (not_not_intro h3a)]
    rfl

/-- Witness for C2 at a concrete lead satisfying all preconditions. -/
theorem confirm_booking_preconditions_witness :
    confirm_and_notify
        { selected_aircraft := some "Citation CJ4"
          submission_state := "collecting" } (some "user-1") =
      ({ selected_aircraft := some "Citation CJ4"
         status := "confirmed"
         submission_state := "confirmed"
         user_id := some "user-1" }, 1) :=
  (confirm_booking_preconditions
      { selected_aircraft := some "Citation CJ4"
        submission_state := "collecting" } (some "user-1")).2.2
    (by decide) (by decide) (by decide)

/-- Claim C6: over the reference catalog with `pax = 4`: the recommended
capacity tier is `(floor, ceiling) = (6, 8)`; the smaller filter is empty
and indeed no catalog item has capacity in `[4, 6)`; and the bigger filter
returns only items with capacity strictly above 8, at most three of them,
ascending by capacity. -/
theorem recommendation_determinism_pax4 :
    compute_recommended_capacity_tier 4 = (6, 8) ∧
    filter_smaller_aircraft 4 AIRCRAFT_FLEET = [] ∧
    AIRCRAFT_FLEET.filter
      (fun a => 4 ≤ a.capacity ∧ a.capacity < 6) = [] ∧
    (filter_bigger_aircraft 4 AIRCRAFT_FLEET).all
      (fun a => decide (8 < a.capacity)) = true ∧
    (filter_bigger_aircraft 4 AIRCRAFT_FLEET).length ≤ 3 ∧
    List.Pairwise capacityAsc (filter_bigger_aircraft 4 AIRCRAFT_FLEET) := by
  decide

/-- Claim C8, shown against the code: the dedup set gates duplicate
dispatches (a call for a session already in the set starts nothing), but
after a send in which one recipient exhausted all `MAX_RETRIES` attempts
while the other recipient succeeded, `_send_with_retries` still removes the
session from the set (`all_success` is false as soon as ANY recipient
fails), so a later call starts a fresh send — contradicting the code's own
comment and the spec, which remove the session only when EVERY recipient
failed. -/
theorem dedup_set_reopened_on_partial_failure :
    send_booking_notification_background ["s1"] "s1" = (["s1"], false) ∧
    recipientDelivered [true, true, true] = true ∧
    send_with_retries ["s1"] "s1" true
      [[false, false, false], [true, true, true]] = [] ∧
    send_booking_notification_background [] "s1" = (["s1"], true) := by
  decide

/-- A key different from the head key looks through to the rest of the
dict. -/
theorem dictGet_cons_ne (k k2 : String) (v : PyVal) (u : Updates)
    (h : k ≠ k2) : dictGet ((k, v) :: u) k2 = dictGet u k2 := by
  simp [dictGet, h]

theorem applyStrField_cons_ne {k k2 : String} {v : PyVal} {u : Updates}
    (h : k ≠ k2) (cur : Option String) :
    applyStrField ((k, v) :: u) k2 cur = applyStrField u k2 cur := by
  unfold applyStrField
  rw [dictGet_cons_ne _ _ _ _ h]

theorem applyPax_cons_ne {k : String} {v : PyVal} {u : Updates}
    (h : k ≠ "pax") (cur : Option Nat) :
    applyPax ((k, v) :: u) cur = applyPax u cur := by
  unfold applyPax
  rw [dictGet_cons_ne _ _ _ _ h]

theorem applySelectedAircraft_cons_ne {k : String} {v : PyVal} {u : Updates}
    (h : k ≠ "selected_aircraft") (cur : Option String) :
    applySelectedAircraft ((k, v) :: u) cur = applySelectedAircraft u cur := by
  unfold applySelectedAircraft
  rw [dictGet_cons_ne _ _ _ _ h]

theorem applySpecialRequests_cons_ne {k : String} {v : PyVal} {u : Updates}
    (h : k ≠ "special_requests") (cur : List String) :
    applySpecialRequests ((k, v) :: u) cur = applySpecialRequests u cur := by
  unfold applySpecialRequests
  rw [dictGet_cons_ne _ _ _ _ h]

/-- Claim C10: `update_lead` writes only the nine recognised fields; a
binding for any other key (in particular `status`, `submission_state` and
`user_id`) is ignored, and the `status`, `submission_state` and `user_id`
fields of the returned lead always equal those of the current lead. -/
theorem update_lead_frame (current : LeadState) (updates : Updates)
    (k : String) (v : PyVal)
    (hk : k ∉ ["name", "email", "date_time", "route_from", "route_to",
               "pax", "selected_aircraft", "phone", "special_requests"]) :
    update_lead current ((k, v) :: updates) = update_lead current updates ∧
    (update_lead current updates).status = current.status ∧
    (update_lead current updates).submission_state =
      current.submission_state ∧
    (update_lead current updates).user_id = current.user_id := by
  simp only [List.mem_cons, List.not_mem_nil, not_or, or_false] at hk
  obtain ⟨h1, h2, h3, h4, h5, h6, h7, _h8, h9⟩ := hk
  refine ⟨?_, rfl, rfl, rfl⟩
  unfold update_lead
  rw [applyStrField_cons_ne h1, applyStrField_cons_ne h2,
    applyStrField_cons_ne h3, applyStrField_cons_ne h4,
    applyStrField_cons_ne h5, applyPax_cons_ne h6,
    applySelectedAircraft_cons_ne h7, applySpecialRequests_cons_ne h9]

/-- Witness for C10 with the `status` key as the ignored binding. -/
theorem update_lead_frame_witness :
    update_lead { pax := some 2 } [("status", .pstr "contacted")] =
      update_lead { pax := some 2 } [] ∧
    (update_lead { pax := some 2 } []).status = "draft" ∧
    (update_lead { pax := some 2 } []).submission_state = "collecting" ∧
    (update_lead { pax := some 2 } []).user_id = none :=
  update_lead_frame { pax := some 2 } [] "status" (.pstr "contacted")
    (by decide)

/-- Claim C9: `details_confirmed` is never stored: `set_submission_state`
rejects every state outside the allowed three (so in particular
`details_confirmed`), a `submission_state` key in the updates dict of
`update_lead` never changes the stored submission state, and the chat
route's attempt `update_lead(session, {"submission_state":
"details_confirmed"})` returns the lead completely unchanged. -/
theorem details_confirmed_never_stored (current : LeadState) (state : String)
    (updates : Updates)
    (hstate : state ∉ ["collecting", "awaiting_auth", "confirmed"]) :
    (∃ msg, set_submission_state current state = .error msg) ∧
    (update_lead current updates).submission_state =
      current.submission_state ∧
    update_lead current [("submission_state", .pstr "details_confirmed")] =
      current := by
  refine ⟨⟨"Invalid submission_state: " ++ state, ?_⟩, rfl, ?_⟩
  · unfold set_submission_state
    rw [if_pos hstate]
  · simp [update_lead, applyStrField, applyPax, applySelectedAircraft,
      applySpecialRequests, applyStrVal, applyPaxVal, applySelVal,
      applySpecialVal, dictGet]

/-- When the value of `applyStrField` differs from the current one, the
dict held a non-empty string candidate differing from the current value,
and that candidate was applied. -/
theorem applyStrField_change (updates : Updates) (k : String)
    (cur : Option String) (h : applyStrField updates k cur ≠ cur) :
    ∃ s, dictGet updates k = some (.pstr s) ∧ s ≠ "" ∧ some s ≠ cur ∧
      applyStrField updates k cur = some s := by
  unfold applyStrField at h ⊢
  cases hd : dictGet updates k with
  | none => rw [hd] at h; exact absurd rfl h
  | some v =>
    cases v with
    | pnone => rw [hd] at h; exact absurd rfl h
    | pint n => rw [hd] at h; exact absurd rfl h
    | plist l => rw [hd] at h; exact absurd rfl h
    | pstr s =>
      rw [hd] at h
      simp only [applyStrVal] at h ⊢
      by_cases hc : s ≠ "" ∧ some s ≠ cur
      · rw [if_pos hc]
        exact ⟨s, rfl, hc.1, hc.2, rfl⟩
      · rw [if_neg hc] at h
        exact absurd rfl h

/-- When the value of `applyPax` differs from the current one, the dict
held a non-null integer candidate differing from the current value, and
that candidate was applied. -/
theorem applyPax_change (updates : Updates) (cur : Option Nat)
    (h : applyPax updates cur ≠ cur) :
    ∃ n, dictGet updates "pax" = some (.pint n) ∧ some n ≠ cur ∧
      applyPax updates cur = some n := by
  unfold applyPax at h ⊢
  cases hd : dictGet updates "pax" with
  | none => rw [hd] at h; exact absurd rfl h
  | some v =>
    cases v with
    | pnone => rw [hd] at h; exact absurd rfl h
    | pstr s => rw [hd] at h; exact absurd rfl h
    | plist l => rw [hd] at h; exact absurd rfl h
    | pint n =>
      rw [hd] at h
      simp only [applyPaxVal] at h ⊢
      by_cases hc : some n ≠ cur
      · rw [if_pos hc]
        exact ⟨n, rfl, hc, rfl⟩
      · rw [if_neg hc] at h
        exact absurd rfl h

/-- Claim C4: the merge applies a scalar candidate (`date_time`,
`route_from`, `route_to`, `pax`) only when it is present, non-null and
non-empty, and differs from the current value — absent or empty candidates
never erase existing data (a field can only change to a present candidate,
never to null); and name/email candidates are applied only when `user_id`
is unset, being silently ignored when `user_id` is set. -/
theorem update_lead_scalar_rules (current : LeadState) (updates : Updates) :
    ((update_lead current updates).date_time ≠ current.date_time →
      ∃ s, dictGet updates "date_time" = some (.pstr s) ∧ s ≠ "" ∧
        some s ≠ current.date_time ∧
        (update_lead current updates).date_time = some s) ∧
    ((update_lead current updates).route_from ≠ current.route_from →
      ∃ s, dictGet updates "route_from" = some (.pstr s) ∧ s ≠ "" ∧
        some s ≠ current.route_from ∧
        (update_lead current updates).route_from = some s) ∧
    ((update_lead current updates).route_to ≠ current.route_to →
      ∃ s, dictGet updates "route_to" = some (.pstr s) ∧ s ≠ "" ∧
        some s ≠ current.route_to ∧
        (update_lead current updates).route_to = some s) ∧
    ((update_lead current updates).pax ≠ current.pax →
      ∃ n, dictGet updates "pax" = some (.pint n) ∧ some n ≠ current.pax ∧
        (update_lead current updates).pax = some n) ∧
    (truthyStr current.user_id = true →
      (update_lead current updates).name = current.name ∧
      (update_lead current updates).email = current.email) ∧
    ((update_lead current updates).name ≠ current.name →
      truthyStr current.user_id = false ∧
      ∃ s, dictGet updates "name" = some (.pstr s) ∧ s ≠ "" ∧
        some s ≠ current.name ∧
        (update_lead current updates).name = some s) ∧
    ((update_lead current updates).email ≠ current.email →
      truthyStr current.user_id = false ∧
      ∃ s, dictGet updates "email" = some (.pstr s) ∧ s ≠ "" ∧
        some s ≠ current.email ∧
        (update_lead current updates).email = some s) := by
  refine ⟨?_, ?_, ?_, ?_, ?_, ?_, ?_⟩
  · exact fun h => applyStrField_change updates "date_time"
      current.date_time h
  · exact fun h => applyStrField_change updates "route_from"
      current.route_from h
  · exact fun h => applyStrField_change updates "route_to"
      current.route_to h
  · exact fun h => applyPax_change updates current.pax h
  · intro hu
    have hn : (update_lead current updates).name =
        if truthyStr current.user_id = true then current.name
        else applyStrField updates "name" current.name := rfl
    have he : (update_lead current updates).email =
        if truthyStr current.user_id = true then current.email
        else applyStrField updates "email" current.email := rfl
    rw [hn, he, if_pos hu, if_pos hu]
    exact ⟨rfl, rfl⟩
  · intro h
    have hn : (update_lead current updates).name =
        if truthyStr current.user_id = true then current.name
        else applyStrField updates "name" current.name := rfl
    by_cases hu : truthyStr current.user_id = true
    · rw [hn, if_pos hu] at h
      exact absurd rfl h
    · rw [hn, if_neg hu] at h ⊢
      exact ⟨Bool.not_eq_true _ ▸ (eq_false_of_ne_true hu),
        applyStrField_change updates "name" current.name h⟩
  · intro h
    have he : (update_lead current updates).email =
        if truthyStr current.user_id = true then current.email
        else applyStrField updates "email" current.email := rfl
    by_cases hu : truthyStr current.user_id = true
    · rw [he, if_pos hu] at h
      exact absurd rfl h
    · rw [he, if_neg hu] at h ⊢
      exact ⟨Bool.not_eq_true _ ▸ (eq_false_of_ne_true hu),
        applyStrField_change updates "email" current.email h⟩

/-- Witness for C4 at a concrete lead and updates dict: the empty-string
`route_to` candidate and the `name` candidate for an authenticated lead are
ignored; a genuine `date_time` change exhibits its candidate. -/
theorem update_lead_scalar_rules_witness :
    ∃ s, dictGet [("date_time", PyVal.pstr "friday"),
        ("route_to", PyVal.pstr ""), ("name", PyVal.pstr "Bob")]
        "date_time" = some (.pstr s) ∧ s ≠ "" ∧
      some s ≠ (none : Option String) ∧
      (update_lead { user_id := some "u1" }
        [("date_time", PyVal.pstr "friday"), ("route_to", PyVal.pstr ""),
         ("name", PyVal.pstr "Bob")]).date_time = some s :=
  (update_lead_scalar_rules { user_id := some "u1" }
      [("date_time", PyVal.pstr "friday"), ("route_to", PyVal.pstr ""),
       ("name", PyVal.pstr "Bob")]).1 (by decide)

/-- Once any special request (in particular the `"none"` sentinel) is
recorded, `get_missing_fields` never lists `special_requests`. -/
theorem not_missing_special (lead : LeadState)
    (h : lead.special_requests ≠ []) :
    "special_requests" ∉ get_missing_fields lead := by
  unfold get_missing_fields
  have hempty : lead.special_requests.isEmpty = false := by
    simpa [List.isEmpty_iff] using h
  simp only [hempty, Bool.and_false, Bool.false_and, if_false,
    List.mem_append, Bool.and_self]
  split_ifs <;> simp_all

/-- Claim C5: the merge never removes or reorders existing
`special_requests` — the prior sequence is always a prefix of the result —
strings already present are not re-added, and once `special_requests` is
non-empty (in particular once it is `["none"]`) it is never flagged missing
again. -/
theorem special_requests_append_only (current : LeadState)
    (updates : Updates) :
    (∃ t, (update_lead current updates).special_requests =
        current.special_requests ++ t ∧
        ∀ r ∈ t, r ∉ current.special_requests) ∧
    (current.special_requests ≠ [] →
      "special_requests" ∉ get_missing_fields (update_lead current updates))
    := by
  have hmain : ∃ t, applySpecialRequests updates current.special_requests =
      current.special_requests ++ t ∧
      ∀ r ∈ t, r ∉ current.special_requests := by
    unfold applySpecialRequests
    cases hd : dictGet updates "special_requests" with
    | none => exact ⟨[], by simp [applySpecialVal]⟩
    | some v =>
      cases v with
      | pnone => exact ⟨[], by simp [applySpecialVal]⟩
      | pint n => exact ⟨[], by simp [applySpecialVal]⟩
      | pstr s =>
        simp only [applySpecialVal]
        by_cases hs : s ≠ ""
        · rw [if_pos hs]
          refine ⟨_, rfl, ?_⟩
          intro r hr
          simp only [List.mem_filter] at hr
          simpa using hr.2
        · rw [if_neg hs]
          exact ⟨[], by simp⟩
      | plist l =>
        simp only [applySpecialVal]
        by_cases hl : l ≠ []
        · rw [if_pos hl]
          refine ⟨_, rfl, ?_⟩
          intro r hr
          simp only [List.mem_filter] at hr
          simpa using hr.2
        · rw [if_neg hl]
          exact ⟨[], by simp⟩
  refine ⟨hmain, ?_⟩
  intro hne
  obtain ⟨t, ht, -⟩ := hmain
  refine not_missing_special _ ?_
  show applySpecialRequests updates current.special_requests ≠ []
  rw [ht]
  simp [hne]

/-- Claim C3: the classifier checks expresses-interest first — whenever an
interest pattern matches, `detect_aircraft_intent` returns
`(false, none)` regardless of the alternatives-request patterns; and when
`wants_aircraft` is true, no interest pattern matched, a query pattern
matched, and the preference is resolved by the groups larger, smaller,
cheapest, fastest in that fixed priority, first matching group winning. -/
theorem classifier_interest_first (o : PatternOracle) (msg : String) :
    (detect_aircraft_interest o msg = true →
      detect_aircraft_intent o msg = (false, none)) ∧
    ((detect_aircraft_intent o msg).1 = true →
      detect_aircraft_interest o msg = false ∧
      o.query msg.toLower.trim = true ∧
      (detect_aircraft_intent o msg).2 =
        (if o.larger msg.toLower.trim then some "larger"
         else if o.smaller msg.toLower.trim then some "smaller"
         else if o.cheapest msg.toLower.trim then some "cheapest"
         else if o.fastest msg.toLower.trim then some "fastest"
         else none)) := by
  by_cases hi : o.interest msg.toLower.trim = true
  · refine ⟨fun _ => ?_, fun h1 => ?_⟩
    · simp [detect_aircraft_intent, detect_aircraft_interest, hi]
    · exfalso
      simp [detect_aircraft_intent, detect_aircraft_interest, hi] at h1
  · have hi2 : o.interest msg.toLower.trim = false :=
      Bool.eq_false_iff.mpr hi
    refine ⟨fun h => absurd h hi, fun hw => ?_⟩
    have hq : o.query msg.toLower.trim = true := by
      simpa [detect_aircraft_intent, detect_aircraft_interest, hi2] using hw
    refine ⟨by simpa [detect_aircraft_interest] using hi2, hq, ?_⟩
    simp [detect_aircraft_intent, detect_aircraft_interest, hi2, hq]

/-- Witness for C3: interest suppresses a simultaneous query match; and on
a pure alternatives request the smaller group beats the cheapest group. -/
theorem classifier_interest_first_witness :
    detect_aircraft_intent oracleInterest
      "Tell me more about the Gulfstream G650" = (false, none) ∧
    (detect_aircraft_interest oracleQuery "show me cheaper options" = false ∧
      oracleQuery.query "show me cheaper options".toLower.trim = true ∧
      (detect_aircraft_intent oracleQuery "show me cheaper options").2 =
        (if oracleQuery.larger "show me cheaper options".toLower.trim then
          some "larger"
         else if oracleQuery.smaller
            "show me cheaper options".toLower.trim then
          some "smaller"
         else if oracleQuery.cheapest
            "show me cheaper options".toLower.trim then
          some "cheapest"
         else if oracleQuery.fastest
            "show me cheaper options".toLower.trim then
          some "fastest"
         else none)) :=
  ⟨(classifier_interest_first oracleInterest
      "Tell me more about the Gulfstream G650").1 rfl,
   (classifier_interest_first oracleQuery "show me cheaper options").2 rfl⟩

/-- Claim C7: for every `pax` and preference, `get_suitable_aircraft`
restricts the catalog to items with `capacity ≥ pax` and returns the first
three of that sublist sorted by the preference's key — capacity descending
for larger, ascending for smaller, base price ascending for cheapest, speed
descending for fastest, and the (capacity − pax, base price) closest-fit
order when no preference is given; when nothing holds `pax`, it returns the
three largest-capacity catalog items instead. -/
theorem suitable_sort_properties (pax : Nat) (preference : Option String) :
    (AIRCRAFT_FLEET.filter (fun a => pax ≤ a.capacity) ≠ [] →
      (preference = some "larger" →
        ∃ l : List Aircraft, l.Perm (AIRCRAFT_FLEET.filter (fun a => pax ≤ a.capacity)) ∧
          l.Sorted capacityDesc ∧
          get_suitable_aircraft pax none preference = l.take 3) ∧
      (preference = some "smaller" →
        ∃ l : List Aircraft, l.Perm (AIRCRAFT_FLEET.filter (fun a => pax ≤ a.capacity)) ∧
          l.Sorted capacityAsc ∧
          get_suitable_aircraft pax none preference = l.take 3) ∧
      (preference = some "cheapest" →
        ∃ l : List Aircraft, l.Perm (AIRCRAFT_FLEET.filter (fun a => pax ≤ a.capacity)) ∧
          l.Sorted basePriceAsc ∧
          get_suitable_aircraft pax none preference = l.take 3) ∧
      (preference = some "fastest" →
        ∃ l : List Aircraft, l.Perm (AIRCRAFT_FLEET.filter (fun a => pax ≤ a.capacity)) ∧
          l.Sorted speedDesc ∧
          get_suitable_aircraft pax none preference = l.take 3) ∧
      (preference = none →
        ∃ l : List Aircraft, l.Perm (AIRCRAFT_FLEET.filter (fun a => pax ≤ a.capacity)) ∧
          l.Sorted (closestFit pax) ∧
          get_suitable_aircraft pax none preference = l.take 3)) ∧
    (AIRCRAFT_FLEET.filter (fun a => pax ≤ a.capacity) = [] →
      ∃ l : List Aircraft, l.Perm AIRCRAFT_FLEET ∧ l.Sorted capacityDesc ∧
        get_suitable_aircraft pax none preference = l.take 3) := by
  constructor
  · intro hne
    refine ⟨?_, ?_, ?_, ?_, ?_⟩ <;> intro hp <;> subst hp
    · refine ⟨List.insertionSort capacityDesc _,
        List.perm_insertionSort _ _, List.sorted_insertionSort _ _, ?_⟩
      simp only [get_suitable_aircraft]
      rw [if_neg hne]
      simp
    · refine ⟨List.insertionSort capacityAsc _,
        List.perm_insertionSort _ _, List.sorted_insertionSort _ _, ?_⟩
      simp only [get_suitable_aircraft]
      rw [if_neg hne]
      simp
    · refine ⟨List.insertionSort basePriceAsc _,
        List.perm_insertionSort _ _, List.sorted_insertionSort _ _, ?_⟩
      simp only [get_suitable_aircraft]
      rw [if_neg hne]
      simp
    · refine ⟨List.insertionSort speedDesc _,
        List.perm_insertionSort _ _, List.sorted_insertionSort _ _, ?_⟩
      simp only [get_suitable_aircraft]
      rw [if_neg hne]
      simp
    · refine ⟨List.insertionSort (closestFit pax) _,
        List.perm_insertionSort _ _, List.sorted_insertionSort _ _, ?_⟩
      simp only [get_suitable_aircraft]
      rw [if_neg hne]
      simp
  · intro hemp
    refine ⟨List.insertionSort capacityDesc _,
      List.perm_insertionSort _ _, List.sorted_insertionSort _ _, ?_⟩
    simp only [get_suitable_aircraft]
    rw [if_pos hemp]

/-- Witness for C7: the larger preference at `pax = 4` (non-empty filter)
and the fallback at `pax = 25` (empty filter). -/
theorem suitable_sort_properties_witness :
    (∃ l : List Aircraft, l.Perm (AIRCRAFT_FLEET.filter (fun a => 4 ≤ a.capacity)) ∧
      l.Sorted capacityDesc ∧
      get_suitable_aircraft 4 none (some "larger") = l.take 3) ∧
    (∃ l : List Aircraft, l.Perm AIRCRAFT_FLEET ∧ l.Sorted capacityDesc ∧
      get_suitable_aircraft 25 none (some "larger") = l.take 3) :=
  ⟨((suitable_sort_properties 4 (some "larger")).1 (by decide)).1 rfl,
   (suitable_sort_properties 25 (some "larger")).2 (by decide)⟩

/-- Witness for C5 at a concrete lead and updates dict (one duplicate, one
new request). -/
theorem special_requests_append_only_witness :
    (∃ t, (update_lead { special_requests := ["none"] }
        [("special_requests", PyVal.plist ["none", "catering"])]
        ).special_requests = ["none"] ++ t ∧
        ∀ r ∈ t, r ∉ (["none"] : List String)) ∧
    (["none"] ≠ ([] : List String) →
      "special_requests" ∉ get_missing_fields
        (update_lead { special_requests := ["none"] }
          [("special_requests", PyVal.plist ["none", "catering"])])) :=
  special_requests_append_only { special_requests := ["none"] }
    [("special_requests", PyVal.plist ["none", "catering"])]
theorem details_confirmed_never_stored_witness :
    (∃ msg, set_submission_state { pax := some 2 } "details_confirmed" =
      .error msg) ∧
    (update_lead { pax := some 2 } [("submission_state", .pstr
      "details_confirmed")]).submission_state = "collecting" ∧
    update_lead { pax := some 2 }
        [("submission_state", .pstr "details_confirmed")] =
      { pax := some 2 } :=
  details_confirmed_never_stored { pax := some 2 } "details_confirmed"
    [("submission_state", .pstr "details_confirmed")] (by decide)
